import Mathlib

/-!
# Verification of `paddlenlp/peft/reft/interventions.py`

A shallow embedding of the two ReFT intervention modules
(`LoreftIntervention`, `TinyIntervention`) and the shared
`LowRankRotateLayer`, together with theorems settling the spec claims.

Modelling conventions:
* A floating-point tensor of shape `[k, n]` is modelled exactly as a
  dtype tag plus a `Matrix (Fin k) (Fin n) ℚ`; `astype` changes only the
  tag (arithmetic is exact, rounding is outside scope).  The leading
  `[...]` batch dimensions of a hidden-state tensor are modelled by a
  single batch dimension `k`.
* Binary tensor operations take the left operand's dtype tag (in the
  source both operands always have the same dtype where it matters, and
  every forward casts its result back to the input's dtype anyway).
* `paddle.nn.Dropout` outside training, or with probability 0, is the
  identity; the stochastic training-time behaviour for `p > 0` is not
  modelled.  The only dropout probabilities the claims touch are 0.
-/

/-- Paddle floating-point dtype tags (`kwargs["dtype"]` values). -/
inductive DType where
  | float32
  | float16
  | bfloat16
  | float64
deriving DecidableEq, Repr

/-- A 2-D tensor: dtype tag plus exact rational entries. -/
structure Ten (k n : ℕ) where
  dtype : DType
  data : Matrix (Fin k) (Fin n) ℚ

/-- A 1-D tensor (bias / diagonal-parameter vectors). -/
structure Vec (n : ℕ) where
  dtype : DType
  data : Fin n → ℚ

namespace Ten

/-- Source `tensor.astype(d)`: exact cast, only the dtype tag changes. -/
def astype (t : Ten k n) (d : DType) : Ten k n :=
  ⟨d, t.data⟩

/-- Source `x + y` on tensors of equal shape (result keeps the left dtype). -/
def add (x y : Ten k n) : Ten k n :=
  ⟨x.dtype, x.data + y.data⟩

/-- Source `x - y` on tensors of equal shape (result keeps the left dtype). -/
def sub (x y : Ten k n) : Ten k n :=
  ⟨x.dtype, x.data - y.data⟩

/-- Source `paddle.matmul(x, w)` / the `@` operator (result keeps the left dtype). -/
def matmul (x : Ten k n) (w : Ten n m) : Ten k m :=
  ⟨x.dtype, x.data * w.data⟩

/-- Source `t * c` for a scalar `c` (the `result * self.scaling` step). -/
def smul (t : Ten k n) (c : ℚ) : Ten k n :=
  ⟨t.dtype, fun i j => t.data i j * c⟩

/-- Source `tensor.T` for a 2-D tensor. -/
def transpose (t : Ten k n) : Ten n k :=
  ⟨t.dtype, t.data.transpose⟩

end Ten

/-- Source `paddle.diag(v)`: the square matrix with `v` on the diagonal. -/
def tdiag (v : Vec n) : Ten n n :=
  ⟨v.dtype, Matrix.diagonal v.data⟩

/-- Source `vector.astype(d)`: exact cast, only the dtype tag changes. -/
def Vec.astype (v : Vec n) (d : DType) : Vec n :=
  ⟨d, v.data⟩

/-- Source `nn.Dropout(p)` applied outside training (or with `p = 0`) is the
identity map; stochastic behaviour for `p > 0` is out of scope. -/
def nnDropout (_p : ℚ) (x : Ten k n) : Ten k n := x

/-- Source `def linear_act(x): return x` — the identity activation. -/
def linear_act (x : Ten k n) : Ten k n := x

/-- The two activation functions stored in `ACT2FN`. -/
inductive ActFn where
  | linear
  | relu
deriving DecidableEq, Repr

/-- Apply an activation: `linear_act` is the identity, `nn.ReLU()` is
entrywise `max 0`. -/
def applyAct : ActFn → Ten k n → Ten k n
  | .linear, x => linear_act x
  | .relu, x => ⟨x.dtype, fun i j => max (x.data i j) 0⟩

/-- Source `ACT2FN = {"linear": linear_act, "relu": nn.ReLU()}` as an
association list from names to activation functions. -/
def ACT2FN : List (String × ActFn) :=
  [("linear", ActFn.linear), ("relu", ActFn.relu)]

/-- Source `LowRankRotateLayer`: a linear layer with a single `[n, m]` weight
parameter (orthogonally initialized by the framework). -/
structure LowRankRotateLayer (n m : ℕ) where
  weight : Ten n m

/-- Source `LowRankRotateLayer.forward(x) = paddle.matmul(x.astype(weight.dtype), weight)`. -/
def LowRankRotateLayer.forward (l : LowRankRotateLayer n m) (x : Ten k n) : Ten k m :=
  (x.astype l.weight.dtype).matmul l.weight

/-- Source `paddle.nn.Linear(in, out)`: weight of shape `[in, out]` and bias of
shape `[out]`, computing `x @ weight + bias`. -/
structure Linear (nIn nOut : ℕ) where
  weight : Ten nIn nOut
  bias : Vec nOut

/-- Source `nn.Linear` forward: `x @ W + b`, the bias broadcast over rows. -/
def Linear.forward (l : Linear nIn nOut) (x : Ten k nIn) : Ten k nOut :=
  ⟨x.dtype, fun i j => (x.data * l.weight.data) i j + l.bias.data j⟩

/-- Source `LoreftIntervention` module state: the rotate layer, the learned
linear source, and the configuration fields set by `__init__`. -/
structure LoreftIntervention (n r : ℕ) where
  rotate_layer : LowRankRotateLayer n r
  learned_source : Linear n r
  data_type : DType
  dropout_p : ℚ
  act_fn : ActFn

/-- Source `LoreftIntervention.forward(base)`:
`dropout((base + (act_fn(learned_source(base)) - rotate_layer(base)) @ rotate_layer.weight.T).astype(base.dtype))`. -/
def LoreftIntervention.forward (d : LoreftIntervention n r) (base : Ten k n) : Ten k n :=
  let rotated_base := d.rotate_layer.forward base
  let output :=
    base.add (((applyAct d.act_fn (d.learned_source.forward base)).sub
      rotated_base).matmul d.rotate_layer.weight.transpose)
  nnDropout d.dropout_p (output.astype base.dtype)

/-- The state dict consumed by `LoreftIntervention.load_state_dict`:
`learned_source.weight`, `learned_source.bias`, and a
`rotate_layer.weight` whose last dimension `w` may be narrower than the
layer's `r`. -/
structure LoreftSD (n r w : ℕ) where
  learned_source_weight : Ten n r
  learned_source_bias : Vec r
  rotate_layer_weight : Ten n w

/-- Source `LoreftIntervention.load_state_dict(sd)`: replaces the learned
source's weight and bias by the checkpoint tensors cast to `data_type`,
and assigns `rotate_layer.weight[:, :w] = sd["rotate_layer.weight"].astype(data_type)`
where `w` is that tensor's last-dimension width, leaving columns `>= w`
untouched. -/
def LoreftIntervention.load_state_dict (d : LoreftIntervention n r)
    (sd : LoreftSD n r w) : LoreftIntervention n r :=
  let overload_w := sd.rotate_layer_weight.astype d.data_type
  { d with
    learned_source :=
      ⟨sd.learned_source_weight.astype d.data_type,
       sd.learned_source_bias.astype d.data_type⟩,
    rotate_layer :=
      ⟨⟨d.rotate_layer.weight.dtype, fun i c =>
          if hc : (c : ℕ) < w then overload_w.data i ⟨c, hc⟩
          else d.rotate_layer.weight.data i c⟩⟩ }

/-- Source `TinyIntervention` module state: the four parameter tensors and the
`scaling` factor (set to 1 by `__init__`; `dropout` is hardcoded to 0.0
there, so its dropout is the identity `lambda x: x`). -/
structure TinyIntervention (n r : ℕ) where
  param_A : Ten n r
  param_B : Ten r n
  param_a : Vec r
  param_b : Vec n
  scaling : ℚ

/-- Source `TinyIntervention.forward(base)`:
`dropout(base + ((dropout(base) @ param_A @ diag(param_a) @ param_B @ diag(param_b)) * scaling).astype(base.dtype))`,
where both dropouts are the identity (`dropout = 0.0` is hardcoded). -/
def TinyIntervention.forward (t : TinyIntervention n r) (base : Ten k n) : Ten k n :=
  let diag_b := tdiag t.param_b
  let diag_a := tdiag t.param_a
  let result :=
    (((((nnDropout 0 base).matmul t.param_A).matmul diag_a).matmul
      t.param_B).matmul diag_b).smul t.scaling
  nnDropout 0 (base.add (result.astype base.dtype))

/-- The state dict consumed by `TinyIntervention.load_state_dict`. -/
structure TinySD (n r : ℕ) where
  param_A : Ten n r
  param_B : Ten r n
  param_a : Vec r
  param_b : Vec n

/-- Source `TinyIntervention.load_state_dict(sd)`: `set_value` on each of the
four parameters. -/
def TinyIntervention.load_state_dict (t : TinyIntervention n r)
    (sd : TinySD n r) : TinyIntervention n r :=
  { t with
    param_A := sd.param_A, param_B := sd.param_B,
    param_a := sd.param_a, param_b := sd.param_b }

/-- Source `TinyIntervention.__init__` parameter values: `param_A` is
Kaiming-uniform random (taken here as an input `A`), `param_B` is all
zeros, `param_a` and `param_b` are all ones, `scaling = 1`; all created
with the layer dtype `dt`. -/
def TinyIntervention.init (n r : ℕ) (dt : DType)
    (A : Matrix (Fin n) (Fin r) ℚ) : TinyIntervention n r :=
  { param_A := ⟨dt, A⟩,
    param_B := ⟨dt, 0⟩,
    param_a := ⟨dt, fun _ => 1⟩,
    param_b := ⟨dt, fun _ => 1⟩,
    scaling := 1 }

/-- The `**kwargs` dict as far as the two constructors read it: `none`
models an absent key.  For `act_fn`, `some none` models the key being
present with value `None`, and `some (some s)` the key mapped to the
string `s`. -/
structure Kwargs where
  embed_dim : Option ℕ
  low_rank_dimension : Option ℕ
  dtype : Option DType
  dropout : Option ℚ
  act_fn : Option (Option String)

/-- Python dict `__getitem__`: raises `KeyError` when the key is absent. -/
def getKw (o : Option α) : Except String α :=
  match o with
  | none => .error "KeyError"
  | some v => .ok v

/-- The configuration `LoreftIntervention.__init__` derives from
`kwargs` (parameter values themselves are random framework
initializations and are not part of the configuration). -/
structure LoreftConfig where
  embed_dim : ℕ
  low_rank_dimension : ℕ
  data_type : DType
  dropout_p : ℚ
  act_fn : ActFn

/-- Source `LoreftIntervention.__init__(**kwargs)`: reads `kwargs["embed_dim"]`,
`kwargs["low_rank_dimension"]`, `kwargs["dtype"]`; `dropout` defaults to
0.0 via an `in`-check; `act_fn` defaults to `linear_act` when absent or
`None`, otherwise is looked up in `ACT2FN` (a further `KeyError` site). -/
def LoreftIntervention.initConfig (kw : Kwargs) : Except String LoreftConfig :=
  match getKw kw.embed_dim with
  | .error e => .error e
  | .ok n =>
    match getKw kw.low_rank_dimension with
    | .error e => .error e
    | .ok r =>
      match getKw kw.dtype with
      | .error e => .error e
      | .ok dt =>
        let p := kw.dropout.getD 0
        match kw.act_fn with
        | none => .ok ⟨n, r, dt, p, ActFn.linear⟩
        | some none => .ok ⟨n, r, dt, p, ActFn.linear⟩
        | some (some s) =>
          match ACT2FN.lookup s with
          | none => .error "KeyError"
          | some af => .ok ⟨n, r, dt, p, af⟩

/-- Source `TinyIntervention.__init__(**kwargs)`: reads
`kwargs["low_rank_dimension"]` then `kwargs["embed_dim"]`; everything
else is fixed (`dropout = 0.0`, `scaling = 1`) or random. -/
def TinyIntervention.initConfig (kw : Kwargs) : Except String (ℕ × ℕ) :=
  match getKw kw.low_rank_dimension with
  | .error e => .error e
  | .ok r =>
    match getKw kw.embed_dim with
    | .error e => .error e
    | .ok n => .ok (r, n)

/-- The two intervention classes, as selectable alternatives. -/
inductive InterventionKind where
  | loreft
  | tiny
deriving DecidableEq, Repr

/-- Source `intervention_mapping = {"LoreftIntervention": LoreftIntervention, "TinyIntervention": TinyIntervention}`. -/
def intervention_mapping : List (String × InterventionKind) :=
  [("LoreftIntervention", InterventionKind.loreft),
   ("TinyIntervention", InterventionKind.tiny)]

/-- A system holding one instance of each intervention, to state that
the two forwards are independent (neither reads the other's state). -/
structure ReftSystem (n r : ℕ) where
  loreft : LoreftIntervention n r
  tiny : TinyIntervention n r

/-- Running the Loreft intervention of a system. -/
def ReftSystem.runLoreft (s : ReftSystem n r) (base : Ten k n) : Ten k n :=
  s.loreft.forward base

/-- Running the Tiny intervention of a system. -/
def ReftSystem.runTiny (s : ReftSystem n r) (base : Ten k n) : Ten k n :=
  s.tiny.forward base

/-- Concrete demo input used by the witness theorems. -/
def demoBase : Ten 1 2 :=
  ⟨DType.float32, Matrix.of fun _ j => ((j : ℕ) + 2 : ℚ)⟩

/-- A second concrete demo input used by the witness theorems. -/
def demoBase2 : Ten 1 2 :=
  ⟨DType.float32, Matrix.of fun _ j => (3 * (j : ℕ) + 1 : ℚ)⟩

/-- Concrete demo rotate layer used by the witness theorems. -/
def demoRotate : LowRankRotateLayer 2 2 :=
  ⟨⟨DType.float32, Matrix.of fun i j => ((i : ℕ) + 2 * (j : ℕ) + 1 : ℚ)⟩⟩

/-- Concrete demo learned source used by the witness theorems. -/
def demoLinear : Linear 2 2 :=
  ⟨⟨DType.float32, Matrix.of fun i j => ((i : ℕ) + (j : ℕ) : ℚ)⟩,
   ⟨DType.float32, fun j => ((j : ℕ) + 1 : ℚ)⟩⟩

/-- Concrete demo Loreft intervention used by the witness theorems. -/
def demoLoreft : LoreftIntervention 2 2 :=
  { rotate_layer := demoRotate, learned_source := demoLinear,
    data_type := DType.float32, dropout_p := 0, act_fn := ActFn.linear }

/-- Concrete demo Loreft state dict (rotate weight one column wide) used
by the witness theorems. -/
def demoLoreftSD : LoreftSD 2 2 1 :=
  { learned_source_weight := ⟨DType.float32, Matrix.of fun _ _ => 4⟩,
    learned_source_bias := ⟨DType.float32, fun _ => 5⟩,
    rotate_layer_weight := ⟨DType.float32, Matrix.of fun _ _ => 6⟩ }

/-- Concrete demo Tiny intervention used by the witness theorems. -/
def demoTiny : TinyIntervention 2 2 :=
  { param_A := ⟨DType.float32, Matrix.of fun _ _ => 1⟩,
    param_B := ⟨DType.float32, Matrix.of fun _ _ => 2⟩,
    param_a := ⟨DType.float32, fun _ => 3⟩,
    param_b := ⟨DType.float32, fun _ => 4⟩, scaling := 1 }

/-- Concrete demo Tiny state dict used by the witness theorems. -/
def demoTinySD : TinySD 2 2 :=
  { param_A := ⟨DType.float32, Matrix.of fun _ _ => 7⟩,
    param_B := ⟨DType.float32, Matrix.of fun _ _ => 8⟩,
    param_a := ⟨DType.float32, fun _ => 9⟩,
    param_b := ⟨DType.float32, fun _ => 10⟩ }

/-- Claim C2: for every input tensor `base`, `TinyIntervention.forward(base)`
returns `base + (base @ param_A @ diag(param_a) @ param_B @ diag(param_b)) * scaling`
cast to `base`'s dtype; entrywise, the additive edit at position `(i, j)` is
`(sum_p (sum_q base[i,q] * A[q,p]) * a[p] * B[p,j]) * b[j] * scaling`. -/
theorem tiny_forward_formula {n r k : ℕ} (t : TinyIntervention n r) (base : Ten k n) :
    t.forward base =
      base.add ((((((base.matmul t.param_A).matmul (tdiag t.param_a)).matmul
        t.param_B).matmul (tdiag t.param_b)).smul t.scaling).astype base.dtype)
    ∧ ∀ (i : Fin k) (j : Fin n),
        (t.forward base).data i j =
          base.data i j +
            (∑ p : Fin r, (∑ q : Fin n, base.data i q * t.param_A.data q p) *
              t.param_a.data p * t.param_B.data p j) * t.param_b.data j * t.scaling := by
  constructor
  · rfl
  · intro i j
    simp only [TinyIntervention.forward, nnDropout, Ten.add, Ten.astype, Ten.smul,
      Ten.matmul, tdiag, Matrix.add_apply]
    simp only [Matrix.mul_diagonal, Matrix.mul_apply, Matrix.diagonal_apply,
      mul_ite, ite_mul, mul_zero, zero_mul, Finset.sum_ite_eq, Finset.sum_ite_eq',
      Finset.mem_univ, if_true, mul_assoc]

/-- Claim C9: immediately after construction (before any training step or
state-dict load), `TinyIntervention.forward` is the identity: `param_B` is
initialized to all zeros, so `forward(base) = base` for every `base` and
every Kaiming-random draw `A` of `param_A`. -/
theorem tiny_init_forward_id {n r k : ℕ} (dt : DType)
    (A : Matrix (Fin n) (Fin r) ℚ) (base : Ten k n) :
    (TinyIntervention.init n r dt A).forward base = base := by
  cases base with
  | mk dtp dat =>
    simp only [TinyIntervention.forward, TinyIntervention.init, nnDropout,
      Ten.add, Ten.astype, Ten.smul, Ten.matmul, tdiag]
    congr 1
    funext i j
    simp [Matrix.mul_apply, Matrix.diagonal_apply]

/-- Claim C3: both forwards preserve shape and dtype.  Shape preservation is
enforced by the return type `Ten k n` of `LoreftIntervention.forward` and
`TinyIntervention.forward` (same as the input); this theorem states dtype
preservation: both cast with `astype(base.dtype)` before returning. -/
theorem forward_preserves_dtype {n r k : ℕ} (d : LoreftIntervention n r)
    (t : TinyIntervention n r) (base base' : Ten k n) :
    (d.forward base).dtype = base.dtype ∧ (t.forward base').dtype = base'.dtype :=
  ⟨rfl, rfl⟩

/-- Claim C6: the two interventions are selected by name via a lookup table;
`intervention_mapping` has exactly the keys "LoreftIntervention" and
"TinyIntervention", mapping to the respective classes, and each forward is
independent of the other intervention's state (changing the Tiny state of a
system never changes the Loreft forward, and vice versa). -/
theorem intervention_mapping_exact :
    (∀ (s : String) (v : InterventionKind),
      (s, v) ∈ intervention_mapping ↔
        (s = "LoreftIntervention" ∧ v = InterventionKind.loreft) ∨
        (s = "TinyIntervention" ∧ v = InterventionKind.tiny))
    ∧ (∀ (n r k : ℕ) (l : LoreftIntervention n r) (t t' : TinyIntervention n r)
        (base : Ten k n),
        (ReftSystem.mk l t).runLoreft base = (ReftSystem.mk l t').runLoreft base)
    ∧ (∀ (n r k : ℕ) (l l' : LoreftIntervention n r) (t : TinyIntervention n r)
        (base : Ten k n),
        (ReftSystem.mk l t).runTiny base = (ReftSystem.mk l' t).runTiny base) := by
  refine ⟨?_, fun n r k l t t' base => rfl, fun n r k l l' t base => rfl⟩
  intro s v
  simp [intervention_mapping, Prod.ext_iff]

/-- Claim C1: for every input hidden-state tensor `base`,
`LoreftIntervention.forward(base)` returns
`dropout((base + (act_fn(learned_source(base)) - base @ R) @ R.T).astype(base.dtype))`
where `R = rotate_layer.weight`; with the default dropout probability 0 and
the default linear `act_fn` this equals `base + (base @ W + b - base @ R) @ R.T`,
stated entrywise via the explicit sum formula. -/
theorem loreft_forward_formula {n r k : ℕ} (d : LoreftIntervention n r) (base : Ten k n)
    (hp : d.dropout_p = 0) (ha : d.act_fn = ActFn.linear) :
    d.forward base =
      nnDropout d.dropout_p
        ((base.add (((applyAct d.act_fn (d.learned_source.forward base)).sub
          (d.rotate_layer.forward base)).matmul
            d.rotate_layer.weight.transpose)).astype base.dtype)
    ∧ (d.forward base).data =
        base.data + Matrix.of (fun (i : Fin k) (j : Fin n) =>
          ∑ p : Fin r,
            ((∑ q : Fin n, base.data i q * d.learned_source.weight.data q p)
              + d.learned_source.bias.data p
              - ∑ q : Fin n, base.data i q * d.rotate_layer.weight.data q p)
            * d.rotate_layer.weight.data j p) := by
  constructor
  · rfl
  · funext i j
    simp only [LoreftIntervention.forward, ha, applyAct, linear_act, nnDropout,
      LowRankRotateLayer.forward, Linear.forward, Ten.add, Ten.sub, Ten.matmul,
      Ten.astype, Ten.transpose, Matrix.add_apply, Matrix.of_apply,
      Matrix.mul_apply, Matrix.sub_apply, Matrix.transpose_apply]

/-- Claim C1 witness: the statement of `loreft_forward_formula` at the
concrete demo intervention and input, hypotheses discharged. -/
theorem loreft_forward_formula_witness :
    demoLoreft.dropout_p = 0 ∧ demoLoreft.act_fn = ActFn.linear ∧
    (demoLoreft.forward demoBase =
      nnDropout demoLoreft.dropout_p
        ((demoBase.add (((applyAct demoLoreft.act_fn
          (demoLoreft.learned_source.forward demoBase)).sub
          (demoLoreft.rotate_layer.forward demoBase)).matmul
            demoLoreft.rotate_layer.weight.transpose)).astype demoBase.dtype)
    ∧ (demoLoreft.forward demoBase).data =
        demoBase.data + Matrix.of (fun (i : Fin 1) (j : Fin 2) =>
          ∑ p : Fin 2,
            ((∑ q : Fin 2, demoBase.data i q * demoLoreft.learned_source.weight.data q p)
              + demoLoreft.learned_source.bias.data p
              - ∑ q : Fin 2, demoBase.data i q * demoLoreft.rotate_layer.weight.data q p)
            * demoLoreft.rotate_layer.weight.data j p)) :=
  ⟨rfl, rfl, loreft_forward_formula demoLoreft demoBase rfl rfl⟩

/-- Claim C4: the edit made by `LoreftIntervention` is rank-reduced: for
every input `base` (with dropout probability 0) there is a tensor `v` with
last dimension `r = low_rank_dimension` such that
`forward(base) = base + v @ rotate_layer.weight.T`, so the difference lies
in the span of the `r` columns of `rotate_layer.weight`. -/
theorem loreft_forward_rank_reduced {n r k : ℕ} (d : LoreftIntervention n r)
    (base : Ten k n) (hp : d.dropout_p = 0) :
    ∃ v : Matrix (Fin k) (Fin r) ℚ,
      (d.forward base).data = base.data + v * (d.rotate_layer.weight.data).transpose :=
  ⟨((applyAct d.act_fn (d.learned_source.forward base)).sub
      (d.rotate_layer.forward base)).data, rfl⟩

/-- Claim C4 witness: the statement of `loreft_forward_rank_reduced` at the
concrete demo intervention and input, hypothesis discharged. -/
theorem loreft_forward_rank_reduced_witness :
    demoLoreft.dropout_p = 0 ∧
    ∃ v : Matrix (Fin 1) (Fin 2) ℚ,
      (demoLoreft.forward demoBase).data =
        demoBase.data + v * (demoLoreft.rotate_layer.weight.data).transpose :=
  ⟨rfl, loreft_forward_rank_reduced demoLoreft demoBase rfl⟩

/-- Claim C5: `LowRankRotateLayer.forward` is the linear projection
`x |-> x @ weight` (the weight being the layer's fixed `[n, m]` parameter):
for inputs of the weight's dtype it is additive and homogeneous. -/
theorem rotate_layer_linear {n m k : ℕ} (l : LowRankRotateLayer n m)
    (x y : Ten k n) (c : ℚ)
    (hx : x.dtype = l.weight.dtype) (hy : y.dtype = l.weight.dtype) :
    l.forward (x.add y) = (l.forward x).add (l.forward y)
    ∧ l.forward (x.smul c) = (l.forward x).smul c := by
  constructor
  · simp only [LowRankRotateLayer.forward, Ten.add, Ten.astype, Ten.matmul]
    congr 1
    exact Matrix.add_mul _ _ _
  · simp only [LowRankRotateLayer.forward, Ten.smul, Ten.astype, Ten.matmul]
    congr 1
    funext i j
    simp only [Matrix.mul_apply, Finset.sum_mul]
    exact Finset.sum_congr rfl fun q _ => by ring

/-- Claim C5 witness: the statement of `rotate_layer_linear` at concrete
demo tensors, dtype hypotheses discharged. -/
theorem rotate_layer_linear_witness :
    demoBase.dtype = demoRotate.weight.dtype ∧
    demoBase2.dtype = demoRotate.weight.dtype ∧
    (demoRotate.forward (demoBase.add demoBase2) =
        (demoRotate.forward demoBase).add (demoRotate.forward demoBase2)
    ∧ demoRotate.forward (demoBase.smul 3) = (demoRotate.forward demoBase).smul 3) :=
  ⟨rfl, rfl, rotate_layer_linear demoRotate demoBase demoBase2 3 rfl rfl⟩

/-- Claim C7: state-dict loading restores the checkpoint's parameters:
after `LoreftIntervention.load_state_dict(sd)`, `learned_source.weight` and
`learned_source.bias` equal the checkpoint tensors cast to `data_type`, and
the first `w` columns of `rotate_layer.weight` equal
`sd["rotate_layer.weight"]` cast to `data_type` (`w` being that tensor's
last-dimension width); after `TinyIntervention.load_state_dict(sd)`, the
four parameters equal the checkpoint values. -/
theorem load_state_dict_restores {n r w : ℕ} (d : LoreftIntervention n r)
    (sd : LoreftSD n r w) (t : TinyIntervention n r) (tsd : TinySD n r)
    (hw : w ≤ r) :
    (d.load_state_dict sd).learned_source.weight
        = sd.learned_source_weight.astype d.data_type
    ∧ (d.load_state_dict sd).learned_source.bias
        = sd.learned_source_bias.astype d.data_type
    ∧ (d.load_state_dict sd).rotate_layer.weight.data.submatrix id (Fin.castLE hw)
        = (sd.rotate_layer_weight.astype d.data_type).data
    ∧ (t.load_state_dict tsd).param_A = tsd.param_A
    ∧ (t.load_state_dict tsd).param_B = tsd.param_B
    ∧ (t.load_state_dict tsd).param_a = tsd.param_a
    ∧ (t.load_state_dict tsd).param_b = tsd.param_b := by
  refine ⟨rfl, rfl, ?_, rfl, rfl, rfl, rfl⟩
  funext i c
  simp only [LoreftIntervention.load_state_dict, Matrix.submatrix_apply, id]
  exact dif_pos c.isLt

/-- Claim C7 witness: the statement of `load_state_dict_restores` at the
concrete demo interventions and state dicts (checkpoint rotate weight of
width 1 against a layer of width 2), hypothesis discharged. -/
theorem load_state_dict_restores_witness :
    (1 : ℕ) ≤ 2 ∧
    ((demoLoreft.load_state_dict demoLoreftSD).learned_source.weight
        = demoLoreftSD.learned_source_weight.astype demoLoreft.data_type
    ∧ (demoLoreft.load_state_dict demoLoreftSD).learned_source.bias
        = demoLoreftSD.learned_source_bias.astype demoLoreft.data_type
    ∧ (demoLoreft.load_state_dict demoLoreftSD).rotate_layer.weight.data.submatrix
          id (Fin.castLE (by decide))
        = (demoLoreftSD.rotate_layer_weight.astype demoLoreft.data_type).data
    ∧ (demoTiny.load_state_dict demoTinySD).param_A = demoTinySD.param_A
    ∧ (demoTiny.load_state_dict demoTinySD).param_B = demoTinySD.param_B
    ∧ (demoTiny.load_state_dict demoTinySD).param_a = demoTinySD.param_a
    ∧ (demoTiny.load_state_dict demoTinySD).param_b = demoTinySD.param_b) :=
  ⟨by decide,
   load_state_dict_restores demoLoreft demoLoreftSD demoTiny demoTinySD (by decide)⟩

/-- Claim C10: `LoreftIntervention.load_state_dict` writes only the first
`w` columns of `rotate_layer.weight` (`w` the checkpoint tensor's
last-dimension width): every column index `c >= w` keeps the value it had
before the call. -/
theorem loreft_load_frame {n r w : ℕ} (d : LoreftIntervention n r)
    (sd : LoreftSD n r w) (i : Fin n) (c : Fin r) (hc : w ≤ (c : ℕ)) :
    (d.load_state_dict sd).rotate_layer.weight.data i c
      = d.rotate_layer.weight.data i c := by
  simp only [LoreftIntervention.load_state_dict]
  exact dif_neg (not_lt.mpr hc)

/-- Claim C10 witness: loading a width-1 checkpoint rotate weight into the
width-2 demo layer leaves column 1 at its prior value, hypothesis
discharged. -/
theorem loreft_load_frame_witness :
    (1 : ℕ) ≤ ((1 : Fin 2) : ℕ) ∧
    (demoLoreft.load_state_dict demoLoreftSD).rotate_layer.weight.data 0 1
      = demoLoreft.rotate_layer.weight.data 0 1 :=
  ⟨by decide, loreft_load_frame demoLoreft demoLoreftSD 0 1 (by decide)⟩

/-- Claim C8: the only failure mode of the constructors is a missing key or
a bad `act_fn` name: `LoreftIntervention.__init__` raises `KeyError` iff
`embed_dim`, `low_rank_dimension` or `dtype` is absent, or `act_fn` is
present with a value that is neither `None` nor a key of `ACT2FN` (whose
keys are exactly "linear" and "relu"); `TinyIntervention.__init__` raises
`KeyError` iff `low_rank_dimension` or `embed_dim` is absent. -/
theorem init_keyerror_iff (kw : Kwargs) :
    ACT2FN.map Prod.fst = ["linear", "relu"]
    ∧ ((∃ e, LoreftIntervention.initConfig kw = Except.error e) ↔
        kw.embed_dim = none ∨ kw.low_rank_dimension = none ∨ kw.dtype = none ∨
        ∃ s, kw.act_fn = some (some s) ∧ ACT2FN.lookup s = none)
    ∧ ((∃ e, TinyIntervention.initConfig kw = Except.error e) ↔
        kw.low_rank_dimension = none ∨ kw.embed_dim = none) := by
  obtain ⟨ed, lrd, dt, dp, af⟩ := kw
  refine ⟨rfl, ?_, ?_⟩
  · rcases ed with _ | n0 <;> rcases lrd with _ | r0 <;> rcases dt with _ | dt0 <;>
      rcases af with _ | (_ | s) <;>
      simp [LoreftIntervention.initConfig, getKw]
    all_goals
      (by_cases h1 : s = "linear"
       · subst h1
         simp [ACT2FN, List.lookup]
       · by_cases h2 : s = "relu"
         · subst h2
           simp [ACT2FN, List.lookup]
         · have hb1 : (s == "linear") = false := beq_eq_false_iff_ne.mpr h1
           have hb2 : (s == "relu") = false := beq_eq_false_iff_ne.mpr h2
           simp only [ACT2FN, List.lookup, hb1, hb2]
           refine iff_of_true ⟨"KeyError", rfl⟩ ?_
           intro a b hab
           simp only [List.mem_cons, List.not_mem_nil, or_false, Prod.mk.injEq] at hab
           rcases hab with ⟨ha, _⟩ | ⟨ha, _⟩ <;> subst ha
           · exact h1
           · exact h2)
  · rcases ed with _ | n0 <;> rcases lrd with _ | r0 <;>
      simp [TinyIntervention.initConfig, getKw]
